import Mathlib

/-!
Shallow embedding of the shadow-calculator core (src-tauri/src/shadow_engine.rs,
src-tauri/src/sun_position.rs, src-tauri/src/main.rs).

Modelling conventions:
- f32/f64 values are modelled as exact rationals; the claims at stake are
  structural and order-theoretic, not about floating-point rounding.
- Trigonometric quantities that the source derives from azimuth and elevation
  (the sun direction components dx, dy, dz in sun_direction, the shadow
  direction components and tan(elevation) used by the candidate selector)
  are transcendental, so the embedding passes the evaluated values as
  parameters.  Every downstream use of those values is embedded exactly.
- Array2 indexing is modelled as a total function together with explicit
  dimensions; checked variants (returning Option) instrument every read for
  the in-bounds claim.
-/

namespace Shadow

/-- Embeds the enum ShadowQuality from types.rs. -/
inductive ShadowQuality where
  | Fast
  | Normal
  | High
  | Scientific
deriving DecidableEq

/-- Embeds the fields of ShadowEngine (shadow_engine.rs lines 19 to 30) that the
shadow computation reads: the clipped DSM, the obstacle heights (dsm - dtm,
computed in the constructor), the resolution in meters per pixel, the buffer in
meters (the source reads config.buffer_meters.unwrap_or(1000.0); the field here
holds that unwrapped value), and the AOI pixel bounds, which are the result of
get_aoi_pixel_bounds (that function always returns Some, so the all-cells
fallback in get_shadow_relevant_cells is unreachable and the bounds are fields
here). -/
structure Engine where
  nrows : ℕ
  ncols : ℕ
  dsm : ℕ → ℕ → ℚ
  heights : ℕ → ℕ → ℚ
  resolution : ℚ
  bufferMeters : ℚ
  aoiMinRow : ℕ
  aoiMaxRow : ℕ
  aoiMinCol : ℕ
  aoiMaxCol : ℕ

/-- Embeds interpolate_height (shadow_engine.rs lines 586 to 604): bilinear
interpolation of the DSM at fractional (row, col).  The floor casts mirror
the Rust float-to-usize conversion, which saturates at 0 for negative input;
the upper neighbor indices are clamped to the last row and column. -/
def interpolate_height (e : Engine) (row col : ℚ) : ℚ :=
  let r0 : ℕ := (⌊row⌋).toNat
  let c0 : ℕ := (⌊col⌋).toNat
  let r1 : ℕ := min (r0 + 1) (e.nrows - 1)
  let c1 : ℕ := min (c0 + 1) (e.ncols - 1)
  let fx : ℚ := col - (c0 : ℚ)
  let fy : ℚ := row - (r0 : ℚ)
  let h00 := e.dsm r0 c0
  let h01 := e.dsm r0 c1
  let h10 := e.dsm r1 c0
  let h11 := e.dsm r1 c1
  let h0 := h00 * (1 - fx) + h01 * fx
  let h1 := h10 * (1 - fx) + h11 * fx
  h0 * (1 - fy) + h1 * fy

/-- Embeds the per-iteration position update of the ray march (shadow_engine.rs
lines 449 to 451 and 562 to 564): x += dx * step, y -= dy * step,
z += dz * step.  The state is the triple (x, y, z).  Note that the z update
multiplies dz by the step only; no resolution factor appears in the source. -/
def march_step (d : ℚ × ℚ × ℚ) (step : ℚ) (p : ℚ × ℚ × ℚ) : ℚ × ℚ × ℚ :=
  (p.1 + d.1 * step, p.2.1 - d.2.1 * step, p.2.2 + d.2.2 * step)

/-- Embeds the ray-march loop shared by calculate_cell_shadow and
calculate_subpixel_shadow (shadow_engine.rs lines 448 to 472 and 561 to 583).
The fuel argument counts the remaining loop iterations; the loop condition
distance < max_distance with distance advancing by a fixed positive step is
equivalent to running ceil(max_distance / step) iterations, which the callers
supply.  Each iteration advances the position, breaks (returns 0, lit) when
the position leaves the window, returns 1 (occluded) when the interpolated
terrain exceeds the ray height, and otherwise continues. -/
def march (e : Engine) (d : ℚ × ℚ × ℚ) (step : ℚ) : ℕ → ℚ × ℚ × ℚ → ℚ
  | 0, _ => 0
  | n + 1, p =>
    let q := march_step d step p
    if q.1 < 0 ∨ q.2.1 < 0 ∨ q.1 ≥ (e.ncols : ℚ) - 1 ∨ q.2.1 ≥ (e.nrows : ℚ) - 1 then 0
    else if interpolate_height e q.2.1 q.1 > q.2.2 then 1
    else march e d step n q

/-- Number of iterations of the while loop: distance takes the values
0, step, 2 step, ... and the loop body runs while distance < max_distance,
hence ceil(max_distance / step) iterations, where
max_distance = buffer_meters / resolution (shadow_engine.rs lines 445 to 448). -/
def march_fuel (e : Engine) (step : ℚ) : ℕ :=
  (⌈(e.bufferMeters / e.resolution) / step⌉).toNat

/-- Embeds calculate_cell_shadow (shadow_engine.rs lines 435 to 473): march
from the cell center (col, row) at the DSM height of the cell, with step 0.5,
toward the sun direction d = (dx, dy, dz). -/
def calculate_cell_shadow (e : Engine) (row col : ℕ) (d : ℚ × ℚ × ℚ) : ℚ :=
  march e d (1/2) (march_fuel e (1/2)) ((col : ℚ), (row : ℚ), e.dsm row col)

/-- Embeds calculate_subpixel_shadow (shadow_engine.rs lines 549 to 584):
march from a fractional (row, col) starting at the bilinearly interpolated
DSM height, with step 0.25. -/
def calculate_subpixel_shadow (e : Engine) (row col : ℚ) (d : ℚ × ℚ × ℚ) : ℚ :=
  march e d (1/4) (march_fuel e (1/4)) (col, row, interpolate_height e row col)

/-- Embeds subsample_cell (shadow_engine.rs lines 527 to 547): average of
samples * samples subpixel rays started at the cell centers of a regular
partition of the cell. -/
def subsample_cell (e : Engine) (row col : ℕ) (d : ℚ × ℚ × ℚ) (samples : ℕ) : ℚ :=
  let step : ℚ := 1 / (samples : ℚ)
  ((Finset.range samples).sum fun i =>
    (Finset.range samples).sum fun j =>
      calculate_subpixel_shadow e ((row : ℚ) + ((i : ℚ) + 1/2) * step)
        ((col : ℚ) + ((j : ℚ) + 1/2) * step) d) / ((samples : ℚ) * (samples : ℚ))

/-- Embeds is_shadow_edge (shadow_engine.rs lines 510 to 525): a cell is an
edge when some 8-neighbor differs from it by more than 0.5.  The callers only
evaluate this at interior cells, so the i32-to-usize index casts never wrap;
toNat mirrors them. -/
def is_shadow_edge (m : ℕ → ℕ → ℚ) (row col : ℕ) : Bool :=
  (([-1, 0, 1] : List ℤ)).any fun dr =>
    (([-1, 0, 1] : List ℤ)).any fun dc =>
      if dr = 0 ∧ dc = 0 then false
      else decide (|m ((row + dr).toNat) ((col + dc).toNat) - m row col| > 1/2)

/-- Embeds the sub_samples match in refine_shadow_edges (shadow_engine.rs
lines 489 to 494). -/
def sub_samples : ShadowQuality → ℕ
  | ShadowQuality.Normal => 2
  | ShadowQuality.High => 4
  | ShadowQuality.Scientific => 8
  | _ => 1

/-- Embeds refine_shadow_edges (shadow_engine.rs lines 475 to 508): every
interior cell (rows 1 to n_rows - 2, cols 1 to n_cols - 2) that is a shadow
edge in the incoming map is replaced by its subsampled average; all other
cells keep their value.  Edge detection reads the incoming map, as in the
source, where the filter runs over the unmodified shadow_map. -/
def refine_shadow_edges (e : Engine) (m : ℕ → ℕ → ℚ) (d : ℚ × ℚ × ℚ)
    (samples : ℕ) : ℕ → ℕ → ℚ :=
  fun r c =>
    if 1 ≤ r ∧ r ≤ e.nrows - 2 ∧ 1 ≤ c ∧ c ≤ e.ncols - 2 ∧ is_shadow_edge m r c then
      subsample_cell e r c d samples
    else m r c

/-- Embeds distance_to_aoi_bounds (shadow_engine.rs lines 389 to 415): the
axis distances to the AOI bounding box, combined euclidean and truncated to an
integer.  The source computes an f64 square root and casts to i32 (truncation
toward zero); for the integer radicands that arise from grid indices this is
exactly Nat.sqrt, since the correctly rounded f64 square root of such an
integer never rounds across an integer boundary. -/
def distance_to_aoi_bounds (row col minRow maxRow minCol maxCol : ℕ) : ℕ :=
  let rowDist : ℕ := if row < minRow then minRow - row
    else if row > maxRow then row - maxRow else 0
  let colDist : ℕ := if col < minCol then minCol - col
    else if col > maxCol then col - maxCol else 0
  Nat.sqrt (rowDist * rowDist + colDist * colDist)

/-- Embeds the max shadow distance (shadow_engine.rs lines 261 to 262):
buffer_meters / resolution cast to i32.  The cast truncates toward zero; both
quantities are positive in every run, so this is the floor. -/
def max_shadow_distance_pixels (e : Engine) : ℤ :=
  ⌊e.bufferMeters / e.resolution⌋

/-- Embeds can_cast_shadow_into_aoi (shadow_engine.rs lines 342 to 387).
The shadow direction components (-sin azimuth, cos azimuth) and tan(elevation)
are passed in as sdx, sdy, tanElev, exactly as the selector computes them at
lines 256 to 258 and 384. -/
def can_cast_shadow_into_aoi (e : Engine) (row col : ℕ)
    (sdx sdy tanElev : ℚ) : Bool :=
  let dist : ℕ :=
    distance_to_aoi_bounds row col e.aoiMinRow e.aoiMaxRow e.aoiMinCol e.aoiMaxCol
  if (dist : ℤ) > max_shadow_distance_pixels e then false
  else
    let aoiCenterRow : ℕ := (e.aoiMinRow + e.aoiMaxRow) / 2
    let aoiCenterCol : ℕ := (e.aoiMinCol + e.aoiMaxCol) / 2
    let toAoiX : ℚ := (aoiCenterCol : ℚ) - (col : ℚ)
    let toAoiY : ℚ := (aoiCenterRow : ℚ) - (row : ℚ)
    let alignment : ℚ := sdx * toAoiX + sdy * toAoiY
    if alignment < 0 then false
    else
      let requiredHeight : ℚ := (dist : ℚ) * e.resolution * tanElev
      decide (e.heights row col ≥ requiredHeight * (1/2))

/-- Embeds get_shadow_relevant_cells (shadow_engine.rs lines 240 to 316):
for every cell in row-major order, skip it when its obstacle height is below
0.5 m, include it when it lies inside the AOI pixel bounds, and otherwise
include it when can_cast_shadow_into_aoi accepts it. -/
def get_shadow_relevant_cells (e : Engine) (sdx sdy tanElev : ℚ) :
    List (ℕ × ℕ) :=
  (List.range e.nrows).flatMap fun row =>
    (List.range e.ncols).filterMap fun col =>
      if e.heights row col < 1/2 then none
      else if e.aoiMinRow ≤ row ∧ row ≤ e.aoiMaxRow ∧
          e.aoiMinCol ≤ col ∧ col ≤ e.aoiMaxCol then some (row, col)
      else if can_cast_shadow_into_aoi e row col sdx sdy tanElev then some (row, col)
      else none

/-- Embeds calculate_shadow_map (shadow_engine.rs lines 211 to 238): start
from a zero map, write the kernel result into every selected cell, and refine
edges unless the quality is Fast.  The sun direction d and the selector
parameters sdx, sdy, tanElev are the trigonometric values the source derives
from the azimuth and elevation. -/
def calculate_shadow_map (e : Engine) (quality : ShadowQuality)
    (d : ℚ × ℚ × ℚ) (sdx sdy tanElev : ℚ) : ℕ → ℕ → ℚ :=
  let relevant := get_shadow_relevant_cells e sdx sdy tanElev
  let base : ℕ → ℕ → ℚ := fun r c =>
    if (r, c) ∈ relevant then calculate_cell_shadow e r c d else 0
  if quality = ShadowQuality.Fast then base
  else refine_shadow_edges e base d (sub_samples quality)

/-- Comparison map for the refinement claim: the same assembly as
calculate_shadow_map but with the kernel dispatched over every cell of the
clipped grid instead of only the selected cells, as the spec sentence on
selector correctness demands. -/
def full_grid_shadow_map (e : Engine) (quality : ShadowQuality)
    (d : ℚ × ℚ × ℚ) : ℕ → ℕ → ℚ :=
  let base : ℕ → ℕ → ℚ := fun r c => calculate_cell_shadow e r c d
  if quality = ShadowQuality.Fast then base
  else refine_shadow_edges e base d (sub_samples quality)

/-- Embeds the per-timestamp branch of calculate_shadows (shadow_engine.rs
lines 181 to 185): when the solar elevation is at most 0 the whole map is 1.0,
otherwise calculate_shadow_map runs. -/
def shadow_map_at (e : Engine) (quality : ShadowQuality) (elevation : ℚ)
    (d : ℚ × ℚ × ℚ) (sdx sdy tanElev : ℚ) : ℕ → ℕ → ℚ :=
  if elevation ≤ 0 then fun _ _ => 1
  else calculate_shadow_map e quality d sdx sdy tanElev

/-- Checked DSM read: the instrumentation of the Array2 index operation used
for the in-bounds claim.  It returns none exactly when the Rust indexing
would panic. -/
def dsmGet? (e : Engine) (r c : ℕ) : Option ℚ :=
  if r < e.nrows ∧ c < e.ncols then some (e.dsm r c) else none

/-- Checked variant of interpolate_height: every one of the four DSM reads
goes through dsmGet?. -/
def interpolate_height_checked (e : Engine) (row col : ℚ) : Option ℚ :=
  let r0 : ℕ := (⌊row⌋).toNat
  let c0 : ℕ := (⌊col⌋).toNat
  let r1 : ℕ := min (r0 + 1) (e.nrows - 1)
  let c1 : ℕ := min (c0 + 1) (e.ncols - 1)
  let fx : ℚ := col - (c0 : ℚ)
  let fy : ℚ := row - (r0 : ℚ)
  match dsmGet? e r0 c0, dsmGet? e r0 c1, dsmGet? e r1 c0, dsmGet? e r1 c1 with
  | some h00, some h01, some h10, some h11 =>
    some ((h00 * (1 - fx) + h01 * fx) * (1 - fy) + (h10 * (1 - fx) + h11 * fx) * fy)
  | _, _, _, _ => none

/-- Checked variant of the march loop: the interpolation of each iteration is
checked, everything else is identical to march. -/
def march_checked (e : Engine) (d : ℚ × ℚ × ℚ) (step : ℚ) :
    ℕ → ℚ × ℚ × ℚ → Option ℚ
  | 0, _ => some 0
  | n + 1, p =>
    let q := march_step d step p
    if q.1 < 0 ∨ q.2.1 < 0 ∨ q.1 ≥ (e.ncols : ℚ) - 1 ∨ q.2.1 ≥ (e.nrows : ℚ) - 1 then
      some 0
    else
      match interpolate_height_checked e q.2.1 q.1 with
      | none => none
      | some h => if h > q.2.2 then some 1 else march_checked e d step n q

/-- Checked variant of calculate_cell_shadow: the initial direct DSM read and
every march read are checked. -/
def calculate_cell_shadow_checked (e : Engine) (row col : ℕ)
    (d : ℚ × ℚ × ℚ) : Option ℚ :=
  (dsmGet? e row col).bind fun z =>
    march_checked e d (1/2) (march_fuel e (1/2)) ((col : ℚ), (row : ℚ), z)

/-- Checked variant of calculate_subpixel_shadow: the initial interpolation
and every march read are checked. -/
def calculate_subpixel_shadow_checked (e : Engine) (row col : ℚ)
    (d : ℚ × ℚ × ℚ) : Option ℚ :=
  (interpolate_height_checked e row col).bind fun z =>
    march_checked e d (1/4) (march_fuel e (1/4)) (col, row, z)

/-!
Sun position model (sun_position.rs).  Time is modelled in seconds of the
UTC day as an exact rational; every duration the binary search manipulates
(starting from the 6 hour half windows and halving at most 9 times before the
1 minute tolerance stops the loop) is exactly representable, matching the
nanosecond-exact chrono Duration arithmetic.  The solar elevation curve of
the day (calculate_position restricted to its elevation component) is
transcendental, so it is a parameter of the embedding; the Option structure
of the result does not depend on it.
-/

/-- Embeds the binary-search loop of find_solar_event (sun_position.rs lines
42 to 65).  The fuel bounds the iteration count; the interval width halves
each iteration from 21600 seconds and the loop stops once the width is at
most 60 seconds, so exactly 9 iterations run and any fuel of at least 9
yields the loop result.  The final expression low + (high - low) / 2 is
returned in every exit. -/
def solar_event_search (elev : ℚ → ℚ) (target : ℚ) (isSunset : Bool) :
    ℕ → ℚ → ℚ → ℚ
  | 0, low, high => low + (high - low) / 2
  | n + 1, low, high =>
    if high - low > 60 then
      let mid := low + (high - low) / 2
      let e := elev mid
      if isSunset then
        if e > target then solar_event_search elev target isSunset n mid high
        else solar_event_search elev target isSunset n low mid
      else
        if e < target then solar_event_search elev target isSunset n mid high
        else solar_event_search elev target isSunset n low mid
    else low + (high - low) / 2

/-- Embeds find_solar_event (sun_position.rs lines 34 to 66): the search
window is solar noon (43200 seconds, the and_hms_opt(12, 0, 0) construction,
which always succeeds) minus 6 hours to noon for sunrise, noon to noon plus
6 hours for sunset.  The function is structurally total: it always returns
some of the converged search value. -/
def find_solar_event (elev : ℚ → ℚ) (target : ℚ) (isSunset : Bool) : Option ℚ :=
  let base : ℚ := 43200
  let searchStart := if isSunset then base else base - 21600
  let searchEnd := if isSunset then base + 21600 else base
  some (solar_event_search elev target isSunset 16 searchStart searchEnd)

/-- Embeds calculate_sunrise_sunset (sun_position.rs lines 21 to 32): the
target elevation is the civil horizon -0.833 degrees; both events are
requested through the question-mark operator and the pair is returned. -/
def calculate_sunrise_sunset (elev : ℚ → ℚ) : Option (ℚ × ℚ) :=
  let targetElevation : ℚ := -833/1000
  match find_solar_event elev targetElevation false,
      find_solar_event elev targetElevation true with
  | some sunrise, some sunset => some (sunrise, sunset)
  | _, _ => none

/-!
Solar position cache (sun_position.rs, get_position, lines 98 to 111).
-/

/-- Query instant fields that get_position reads: the cache key is
(day-of-year, hour); minute and year only feed the uncached trigonometric
computation. -/
structure QueryTime where
  ordinal : ℕ
  hour : ℕ
  minute : ℕ
  year : ℤ
deriving DecidableEq

/-- Embeds the cache key (ordinal day-of-year, hour-of-day) of get_position. -/
def cache_key (t : QueryTime) : ℕ × ℕ := (t.ordinal, t.hour)

/-- Embeds round_angles (sun_position.rs lines 144 to 150): quantize both
angles to multiples of the angle precision. -/
def round_angles (prec : ℚ) (az el : ℚ) : ℚ × ℚ :=
  let invPrecision := 1 / prec
  ((round (az * invPrecision) : ℚ) * prec, (round (el * invPrecision) : ℚ) * prec)

/-- Association-list model of the HashMap cache of SunCalculator. -/
def cache_lookup (key : ℕ × ℕ) :
    List ((ℕ × ℕ) × (ℚ × ℚ)) → Option (ℚ × ℚ)
  | [] => none
  | (k, v) :: rest => if k = key then some v else cache_lookup key rest

/-- Embeds get_position (sun_position.rs lines 98 to 111) with explicit cache
state: on a hit the cached pair is returned unchanged; on a miss the position
is computed (calcPos stands for the trigonometric calculate_position), the
angles are rounded, the rounded pair is inserted under the key and returned. -/
def get_position (calcPos : QueryTime → ℚ × ℚ) (prec : ℚ)
    (cache : List ((ℕ × ℕ) × (ℚ × ℚ))) (t : QueryTime) :
    (ℚ × ℚ) × List ((ℕ × ℕ) × (ℚ × ℚ)) :=
  let key := cache_key t
  match cache_lookup key cache with
  | some v => (v, cache)
  | none =>
    let raw := calcPos t
    let rounded := round_angles prec raw.1 raw.2
    (rounded, (key, rounded) :: cache)

/-!
Statistics reducer (shadow_engine.rs, calculate_summary_stats).
-/

/-- Timestamp fields the monthly rollup reads. -/
structure Timestamp where
  year : ℤ
  month : ℕ
  day : ℕ
  hour : ℕ
deriving DecidableEq

/-- Embeds the (month, year) grouping key of the rollup. -/
def month_year_key (t : Timestamp) : ℕ × ℤ := (t.month, t.year)

/-- Embeds date_naive: the calendar date of a timestamp. -/
def date_naive (t : Timestamp) : ℤ × ℕ × ℕ := (t.year, t.month, t.day)

/-- Embeds the construction of monthly_date_groups (main.rs lines 1032 to
1044): one pass over the timestamps inserting the date of each into the set
stored under its (month, year) key.  HashMap and HashSet are modelled as a
total function into Finset. -/
def monthly_date_groups (ts : List Timestamp) : ℕ × ℤ → Finset (ℤ × ℕ × ℕ) :=
  ts.foldl
    (fun m t => fun k =>
      if k = month_year_key t then insert (date_naive t) (m k) else m k)
    (fun _ => ∅)

/-- Embeds days_in_analysis (main.rs lines 1049 to 1050): the size of the
date set stored under the group key. -/
def days_in_analysis (ts : List Timestamp) (k : ℕ × ℤ) : ℕ :=
  (monthly_date_groups ts k).card

/-!
Helper lemmas.
-/

/-- The ray-march loop only ever produces 0 (lit) or 1 (occluded). -/
lemma march_eq_zero_or_one (e : Engine) (d : ℚ × ℚ × ℚ) (step : ℚ) :
    ∀ (n : ℕ) (p : ℚ × ℚ × ℚ), march e d step n p = 0 ∨ march e d step n p = 1
  | 0, _ => Or.inl rfl
  | n + 1, p => by
    rw [march]
    split_ifs with h1 h2
    · exact Or.inl rfl
    · exact Or.inr rfl
    · exact march_eq_zero_or_one e d step n _

/-- The whole-cell kernel only produces 0 or 1. -/
lemma calculate_cell_shadow_eq_zero_or_one (e : Engine) (row col : ℕ)
    (d : ℚ × ℚ × ℚ) :
    calculate_cell_shadow e row col d = 0 ∨ calculate_cell_shadow e row col d = 1 :=
  march_eq_zero_or_one e d _ _ _

/-- The subpixel kernel only produces 0 or 1. -/
lemma calculate_subpixel_shadow_eq_zero_or_one (e : Engine) (row col : ℚ)
    (d : ℚ × ℚ × ℚ) :
    calculate_subpixel_shadow e row col d = 0 ∨
      calculate_subpixel_shadow e row col d = 1 :=
  march_eq_zero_or_one e d _ _ _

/-- The subsampled average of a cell lies in the unit interval. -/
lemma subsample_cell_mem_unit (e : Engine) (row col : ℕ) (d : ℚ × ℚ × ℚ)
    (samples : ℕ) :
    0 ≤ subsample_cell e row col d samples ∧ subsample_cell e row col d samples ≤ 1 := by
  unfold subsample_cell
  rcases Nat.eq_zero_or_pos samples with hs | hs
  · subst hs
    simp
  · have hq : (0 : ℚ) < (samples : ℚ) := by exact_mod_cast hs
    have hpos : (0 : ℚ) < (samples : ℚ) * (samples : ℚ) := mul_pos hq hq
    have hterm : ∀ r c : ℚ, 0 ≤ calculate_subpixel_shadow e r c d ∧
        calculate_subpixel_shadow e r c d ≤ 1 := by
      intro r c
      rcases calculate_subpixel_shadow_eq_zero_or_one e r c d with h | h <;>
        rw [h] <;> norm_num
    constructor
    · apply div_nonneg _ hpos.le
      apply Finset.sum_nonneg
      intro i _
      apply Finset.sum_nonneg
      intro j _
      exact (hterm _ _).1
    · rw [div_le_one hpos]
      calc ((Finset.range samples).sum fun i => (Finset.range samples).sum fun j =>
            calculate_subpixel_shadow e ((row : ℚ) + ((i : ℚ) + 1/2) * (1 / (samples : ℚ)))
              ((col : ℚ) + ((j : ℚ) + 1/2) * (1 / (samples : ℚ))) d)
          ≤ (Finset.range samples).sum fun _ => (samples : ℚ) := by
            apply Finset.sum_le_sum
            intro i _
            calc ((Finset.range samples).sum fun j =>
                calculate_subpixel_shadow e ((row : ℚ) + ((i : ℚ) + 1/2) * (1 / (samples : ℚ)))
                  ((col : ℚ) + ((j : ℚ) + 1/2) * (1 / (samples : ℚ))) d)
                ≤ (Finset.range samples).sum fun _ => (1 : ℚ) :=
                  Finset.sum_le_sum fun j _ => (hterm _ _).2
              _ = (samples : ℚ) := by
                  rw [Finset.sum_const, Finset.card_range, nsmul_eq_mul, mul_one]
        _ = (samples : ℚ) * (samples : ℚ) := by
            rw [Finset.sum_const, Finset.card_range, nsmul_eq_mul]

/-- Unfolding equation for the Fast path of the map assembly: no refinement
runs and the base map is the kernel on selected cells and the zero default
elsewhere. -/
lemma calculate_shadow_map_fast_apply (e : Engine) (d : ℚ × ℚ × ℚ)
    (sdx sdy tanElev : ℚ) (r c : ℕ) :
    calculate_shadow_map e ShadowQuality.Fast d sdx sdy tanElev r c =
      (if (r, c) ∈ get_shadow_relevant_cells e sdx sdy tanElev then
        calculate_cell_shadow e r c d else 0) := rfl

lemma calculate_shadow_map_fast_eq_zero_or_one (e : Engine) (d : ℚ × ℚ × ℚ)
    (sdx sdy tanElev : ℚ) (r c : ℕ) :
    calculate_shadow_map e ShadowQuality.Fast d sdx sdy tanElev r c = 0 ∨
      calculate_shadow_map e ShadowQuality.Fast d sdx sdy tanElev r c = 1 := by
  rw [calculate_shadow_map_fast_apply]
  by_cases hm : (r, c) ∈ get_shadow_relevant_cells e sdx sdy tanElev
  · rw [if_pos hm]
    exact calculate_cell_shadow_eq_zero_or_one e r c d
  · rw [if_neg hm]
    exact Or.inl rfl

/-- Every entry of the assembled per-instant map lies in the unit interval,
for every quality. -/
lemma calculate_shadow_map_mem_unit (e : Engine) (quality : ShadowQuality)
    (d : ℚ × ℚ × ℚ) (sdx sdy tanElev : ℚ) (r c : ℕ) :
    0 ≤ calculate_shadow_map e quality d sdx sdy tanElev r c ∧
      calculate_shadow_map e quality d sdx sdy tanElev r c ≤ 1 := by
  have hbase : ∀ r' c' : ℕ,
      (0 : ℚ) ≤ (if (r', c') ∈ get_shadow_relevant_cells e sdx sdy tanElev then
          calculate_cell_shadow e r' c' d else 0) ∧
        (if (r', c') ∈ get_shadow_relevant_cells e sdx sdy tanElev then
          calculate_cell_shadow e r' c' d else 0) ≤ 1 := by
    intro r' c'
    by_cases hm : (r', c') ∈ get_shadow_relevant_cells e sdx sdy tanElev
    · rw [if_pos hm]
      rcases calculate_cell_shadow_eq_zero_or_one e r' c' d with h | h <;>
        rw [h] <;> norm_num
    · rw [if_neg hm]
      norm_num
  by_cases hq : quality = ShadowQuality.Fast
  · subst hq
    rw [calculate_shadow_map_fast_apply]
    exact hbase r c
  · have hrw : calculate_shadow_map e quality d sdx sdy tanElev r c =
        refine_shadow_edges e
          (fun r' c' => if (r', c') ∈ get_shadow_relevant_cells e sdx sdy tanElev then
            calculate_cell_shadow e r' c' d else 0) d (sub_samples quality) r c := by
      unfold calculate_shadow_map
      rw [if_neg hq]
    rw [hrw]
    unfold refine_shadow_edges
    split_ifs with he
    · exact subsample_cell_mem_unit e r c d _
    · exact hbase r c

/-!
Concrete instances used by the counterexamples and witnesses.  Each claim has
its own instance so that the developments stay independent.
-/

/-- A 2 by 4 grid with flat ground on the two west columns (inside the AOI
pixel bounds, rows 0 to 1 and cols 0 to 1) and a 5 m obstacle wall on the two
east columns, at 1 m resolution with a 2 m buffer.  The heights field equals
dsm minus a zero dtm. -/
def pillarGrid : Engine :=
  { nrows := 2, ncols := 4
    dsm := fun _ c => if 2 ≤ c then 5 else 0
    heights := fun _ c => if 2 ≤ c then 5 else 0
    resolution := 1, bufferMeters := 2
    aoiMinRow := 0, aoiMaxRow := 1, aoiMinCol := 0, aoiMaxCol := 1 }

/-- A 1 by 1 grid whose single cell is inside the AOI pixel bounds and has
obstacle height 0. -/
def flatAoiGrid : Engine :=
  { nrows := 1, ncols := 1
    dsm := fun _ _ => 0
    heights := fun _ _ => 0
    resolution := 1, bufferMeters := 1
    aoiMinRow := 0, aoiMaxRow := 0, aoiMinCol := 0, aoiMaxCol := 0 }

/-!
Claim theorems.
-/

/-- Claim C5: every entry of the produced shadow stack lies in the interval
[0, 1]; and when the shadow quality is Fast, every entry is exactly 0 or
exactly 1.  The per-timestamp entry is shadow_map_at, covering both the night
branch (constant 1) and the assembled, possibly edge-refined, daytime map. -/
theorem shadow_stack_entries_bounded (e : Engine) (quality : ShadowQuality)
    (elevation : ℚ) (d : ℚ × ℚ × ℚ) (sdx sdy tanElev : ℚ) (r c : ℕ) :
    0 ≤ shadow_map_at e quality elevation d sdx sdy tanElev r c ∧
      shadow_map_at e quality elevation d sdx sdy tanElev r c ≤ 1 ∧
      (quality = ShadowQuality.Fast →
        shadow_map_at e quality elevation d sdx sdy tanElev r c = 0 ∨
          shadow_map_at e quality elevation d sdx sdy tanElev r c = 1) := by
  unfold shadow_map_at
  by_cases hel : elevation ≤ 0
  · rw [if_pos hel]
    refine ⟨by norm_num, le_refl 1, fun _ => Or.inr rfl⟩
  · rw [if_neg hel]
    obtain ⟨h0, h1⟩ := calculate_shadow_map_mem_unit e quality d sdx sdy tanElev r c
    refine ⟨h0, h1, fun hq => ?_⟩
    subst hq
    exact calculate_shadow_map_fast_eq_zero_or_one e d sdx sdy tanElev r c

/-- Witness for C5 at a concrete engine, quality Fast, a daytime elevation
and the cell (0, 0). -/
theorem shadow_stack_entries_bounded_witness :
    (0 ≤ shadow_map_at flatAoiGrid ShadowQuality.Fast 10 (1, 0, 1) 0 0 1 0 0 ∧
      shadow_map_at flatAoiGrid ShadowQuality.Fast 10 (1, 0, 1) 0 0 1 0 0 ≤ 1) ∧
      (shadow_map_at flatAoiGrid ShadowQuality.Fast 10 (1, 0, 1) 0 0 1 0 0 = 0 ∨
        shadow_map_at flatAoiGrid ShadowQuality.Fast 10 (1, 0, 1) 0 0 1 0 0 = 1) :=
  ⟨⟨(shadow_stack_entries_bounded flatAoiGrid ShadowQuality.Fast 10 (1, 0, 1) 0 0 1 0 0).1,
    (shadow_stack_entries_bounded flatAoiGrid ShadowQuality.Fast 10 (1, 0, 1) 0 0 1 0 0).2.1⟩,
    (shadow_stack_entries_bounded flatAoiGrid ShadowQuality.Fast 10 (1, 0, 1) 0 0 1 0 0).2.2 rfl⟩

/-- Claim C6: for every timestamp whose solar elevation is at most 0, the
per-instant shadow map equals 1.0 at every cell.  The statement quantifies
over every engine, quality, sun direction and selector input, so the night
value is independent of the DSM and the kernel: no ray march contributes. -/
theorem night_shadow_map_all_ones (e : Engine) (quality : ShadowQuality)
    (elevation : ℚ) (d : ℚ × ℚ × ℚ) (sdx sdy tanElev : ℚ) (r c : ℕ)
    (h : elevation ≤ 0) :
    shadow_map_at e quality elevation d sdx sdy tanElev r c = 1 := by
  unfold shadow_map_at
  rw [if_pos h]

/-- Witness for C6 at a concrete engine and elevation -5. -/
theorem night_shadow_map_all_ones_witness :
    (-5 : ℚ) ≤ 0 ∧
      shadow_map_at flatAoiGrid ShadowQuality.Normal (-5) (1, 0, 1) 0 0 1 0 0 = 1 :=
  ⟨by norm_num,
    night_shadow_map_all_ones flatAoiGrid ShadowQuality.Normal (-5) (1, 0, 1) 0 0 1 0 0
      (by norm_num)⟩

/-- Claim C1 (refuting evaluation): on pillarGrid with sun from the east at a
low positive elevation (sun direction (1, 0, 1/10), selector inputs
sdx = -1, sdy = 0, tan elevation = 1/10) and quality Fast, the cell (0, 0)
lies inside the AOI pixel bounds, the kernel dispatched over the full grid
yields 1 there (the east wall occludes the ray), yet the selector-pruned
dispatch yields the default 0, because the selector drops the cell for its
obstacle height 0 before the AOI-inclusion test. -/
theorem selector_pruned_dispatch_differs_on_aoi_cell :
    (pillarGrid.aoiMinRow ≤ 0 ∧ 0 ≤ pillarGrid.aoiMaxRow ∧
      pillarGrid.aoiMinCol ≤ 0 ∧ 0 ≤ pillarGrid.aoiMaxCol) ∧
      full_grid_shadow_map pillarGrid ShadowQuality.Fast (1, 0, 1/10) 0 0 = 1 ∧
      calculate_shadow_map pillarGrid ShadowQuality.Fast (1, 0, 1/10) (-1) 0 (1/10) 0 0 = 0 := by
  have h1 : Nat.sqrt 1 = 1 := by decide
  have h4 : Nat.sqrt 4 = 2 := by
    rw [show (4 : ℕ) = 2 * 2 from rfl]
    exact Nat.sqrt_eq 2
  refine ⟨⟨by norm_num [pillarGrid], by norm_num [pillarGrid], by norm_num [pillarGrid],
    by norm_num [pillarGrid]⟩, ?_, ?_⟩
  · norm_num [full_grid_shadow_map, calculate_cell_shadow, march_fuel, march, march_step,
      interpolate_height, pillarGrid]
  · norm_num [calculate_shadow_map, get_shadow_relevant_cells, can_cast_shadow_into_aoi,
      distance_to_aoi_bounds, max_shadow_distance_pixels, pillarGrid, List.range_succ,
      List.filterMap_cons, h1, h4]

/-- Claim C2 (refuting evaluation): one iteration of the march advances the
state by (dx * step, -dy * step, dz * step); with dz = 1/2 and step = 1/2 the
height advances by 1/4, which differs from the dz * step * resolution = 1/2
of the claim at resolution 2 m per pixel. -/
theorem march_z_advance_has_no_resolution_factor :
    march_step (1, 0, 1/2) (1/2) (0, 0, 0) = (1/2, 0, 1/4) ∧
      ((1/4 : ℚ) ≠ (1/2) * (1/2) * 2) := by
  constructor
  · norm_num [march_step]
  · norm_num

/-- Claim C3 (refuting evaluation): on flatAoiGrid the cell (0, 0) lies
inside the AOI pixel bounds but has obstacle height 0 below the 0.5 m skip
threshold, so the selector omits it: the candidate set does depend on the
obstacle height of AOI cells. -/
theorem selector_omits_aoi_cell_with_low_height :
    (flatAoiGrid.aoiMinRow ≤ 0 ∧ 0 ≤ flatAoiGrid.aoiMaxRow ∧
      flatAoiGrid.aoiMinCol ≤ 0 ∧ 0 ≤ flatAoiGrid.aoiMaxCol) ∧
      flatAoiGrid.heights 0 0 = 0 ∧
      (0, 0) ∉ get_shadow_relevant_cells flatAoiGrid 0 0 0 := by
  refine ⟨⟨by norm_num [flatAoiGrid], by norm_num [flatAoiGrid], by norm_num [flatAoiGrid],
    by norm_num [flatAoiGrid]⟩, by norm_num [flatAoiGrid], ?_⟩
  norm_num [get_shadow_relevant_cells, flatAoiGrid, List.range_succ, List.filterMap_cons]

/-- Claim C4 (refuting evaluation): calculate_sunrise_sunset is structurally
total: for every elevation curve, including one that never crosses the
-0.833 degree horizon (any polar day or night), it returns some pair; the
bottom branch of the claim is unreachable. -/
theorem calculate_sunrise_sunset_always_returns_pair :
    ∀ elev : ℚ → ℚ, ∃ p : ℚ × ℚ, calculate_sunrise_sunset elev = some p :=
  fun _ => ⟨_, rfl⟩

/-- One pass of date insertion keyed by (month, year), started from any map,
adds under each key exactly the dates of the timestamps of that group. -/
lemma monthly_date_groups_fold (ts : List Timestamp) :
    ∀ (m₀ : ℕ × ℤ → Finset (ℤ × ℕ × ℕ)) (k : ℕ × ℤ),
      ts.foldl
        (fun m t => fun k' =>
          if k' = month_year_key t then insert (date_naive t) (m k') else m k')
        m₀ k
        = m₀ k ∪ ((ts.filter fun t => month_year_key t = k).map date_naive).toFinset := by
  induction ts with
  | nil =>
    intro m₀ k
    simp
  | cons t ts ih =>
    intro m₀ k
    rw [List.foldl_cons, ih]
    by_cases hk : month_year_key t = k
    · rw [List.filter_cons_of_pos (by simp [hk]), List.map_cons, List.toFinset_cons,
        if_pos hk.symm, Finset.insert_union, Finset.union_insert]
    · rw [List.filter_cons_of_neg (by simp [hk]), if_neg (fun h => hk h.symm)]

/-- Claim C8: in the monthly rollup of the seasonal analysis, for every
(month, year) group key, the reported days_in_analysis equals the number of
distinct calendar dates among the timestamps of that group. -/
theorem days_in_analysis_eq_distinct_dates (ts : List Timestamp) (k : ℕ × ℤ) :
    days_in_analysis ts k =
      ((ts.filter fun t => month_year_key t = k).map date_naive).toFinset.card := by
  unfold days_in_analysis monthly_date_groups
  rw [monthly_date_groups_fold]
  simp

/-- Claim C9: on a fixed calculator instance, two successive get_position
queries whose instants share the cache key (day-of-year, hour-of-day) return
the same (azimuth, elevation): the second query is served from the cache
entry the first one read or wrote, whatever the raw position function does
with the minutes or the year of the instant. -/
theorem get_position_same_key_same_result (calcPos : QueryTime → ℚ × ℚ)
    (prec : ℚ) (cache : List ((ℕ × ℕ) × (ℚ × ℚ))) (t₁ t₂ : QueryTime)
    (hk : cache_key t₁ = cache_key t₂) :
    (get_position calcPos prec cache t₁).1 =
      (get_position calcPos prec (get_position calcPos prec cache t₁).2 t₂).1 := by
  unfold get_position
  rw [← hk]
  cases h : cache_lookup (cache_key t₁) cache with
  | some v => simp [h]
  | none => simp [h, cache_lookup]

/-- Witness for C9: the two instants share day-of-year 100 and hour 12 but
differ in minute and year, and the raw position function depends on both the
minute and the year; the two queries nevertheless agree. -/
theorem get_position_same_key_same_result_witness :
    cache_key ⟨100, 12, 0, 2024⟩ = cache_key ⟨100, 12, 37, 1999⟩ ∧
      (get_position (fun t => ((t.minute : ℚ), (t.year : ℚ))) 1 []
          ⟨100, 12, 0, 2024⟩).1 =
        (get_position (fun t => ((t.minute : ℚ), (t.year : ℚ))) 1
          (get_position (fun t => ((t.minute : ℚ), (t.year : ℚ))) 1 []
            ⟨100, 12, 0, 2024⟩).2 ⟨100, 12, 37, 1999⟩).1 :=
  ⟨rfl,
    get_position_same_key_same_result (fun t => ((t.minute : ℚ), (t.year : ℚ))) 1 []
      ⟨100, 12, 0, 2024⟩ ⟨100, 12, 37, 1999⟩ rfl⟩

/-- When the floor of the query row and column are strictly inside the grid,
every one of the four bilinear reads is in bounds, so the checked
interpolation returns the unchecked value. -/
lemma interpolate_height_checked_eq (e : Engine) (row col : ℚ)
    (hr : (⌊row⌋).toNat < e.nrows) (hc : (⌊col⌋).toNat < e.ncols) :
    interpolate_height_checked e row col = some (interpolate_height e row col) := by
  have hr1 : min ((⌊row⌋).toNat + 1) (e.nrows - 1) < e.nrows := by omega
  have hc1 : min ((⌊col⌋).toNat + 1) (e.ncols - 1) < e.ncols := by omega
  simp only [interpolate_height_checked, interpolate_height, dsmGet?]
  rw [if_pos ⟨hr, hc⟩, if_pos ⟨hr, hc1⟩, if_pos ⟨hr1, hc⟩, if_pos ⟨hr1, hc1⟩]

/-- The checked march never fails: the window test of each iteration runs
before the interpolation, and a passed test puts the floor of the position
strictly inside the grid, so every DSM read is in bounds. -/
lemma march_checked_eq_some (e : Engine) (d : ℚ × ℚ × ℚ) (step : ℚ) :
    ∀ (n : ℕ) (p : ℚ × ℚ × ℚ),
      march_checked e d step n p = some (march e d step n p)
  | 0, _ => rfl
  | n + 1, p => by
    simp only [march_checked, march]
    by_cases hb : (march_step d step p).1 < 0 ∨ (march_step d step p).2.1 < 0 ∨
        (march_step d step p).1 ≥ (e.ncols : ℚ) - 1 ∨
        (march_step d step p).2.1 ≥ (e.nrows : ℚ) - 1
    · rw [if_pos hb, if_pos hb]
    · rw [if_neg hb, if_neg hb]
      push_neg at hb
      obtain ⟨hx0, hy0, hxc, hyr⟩ := hb
      have hyfloor : (⌊(march_step d step p).2.1⌋).toNat < e.nrows := by
        have h1 : (0 : ℤ) ≤ ⌊(march_step d step p).2.1⌋ := Int.floor_nonneg.mpr hy0
        have h2 : (⌊(march_step d step p).2.1⌋ : ℚ) < (e.nrows : ℚ) - 1 :=
          lt_of_le_of_lt (Int.floor_le _) hyr
        have h3 : ⌊(march_step d step p).2.1⌋ < (e.nrows : ℤ) - 1 := by exact_mod_cast h2
        omega
      have hxfloor : (⌊(march_step d step p).1⌋).toNat < e.ncols := by
        have h1 : (0 : ℤ) ≤ ⌊(march_step d step p).1⌋ := Int.floor_nonneg.mpr hx0
        have h2 : (⌊(march_step d step p).1⌋ : ℚ) < (e.ncols : ℚ) - 1 :=
          lt_of_le_of_lt (Int.floor_le _) hxc
        have h3 : ⌊(march_step d step p).1⌋ < (e.ncols : ℤ) - 1 := by exact_mod_cast h2
        omega
      rw [interpolate_height_checked_eq e _ _ hyfloor hxfloor]
      show (if interpolate_height e (march_step d step p).2.1 (march_step d step p).1 >
            (march_step d step p).2.2 then some 1
          else march_checked e d step n (march_step d step p)) =
        some (if interpolate_height e (march_step d step p).2.1 (march_step d step p).1 >
            (march_step d step p).2.2 then 1
          else march e d step n (march_step d step p))
      by_cases hgt : interpolate_height e (march_step d step p).2.1 (march_step d step p).1 >
          (march_step d step p).2.2
      · rw [if_pos hgt, if_pos hgt]
      · rw [if_neg hgt, if_neg hgt]
        exact march_checked_eq_some e d step n _

/-- Claim C10: every DSM read of a ray march is in bounds.  For a whole-cell
march started at a cell inside the grid and for a subpixel march started at a
fractional position inside the grid, the fully checked kernels return some of
the unchecked kernel values: the out-of-bounds branch of the instrumentation
is unreachable, because the march breaks out before interpolating whenever
the position leaves the half-open window and interpolate_height clamps its
upper neighbor indices to the last row and column. -/
theorem ray_march_dsm_reads_in_bounds (e : Engine) (d : ℚ × ℚ × ℚ)
    (row col : ℕ) (rq cq : ℚ)
    (hr : row < e.nrows) (hc : col < e.ncols)
    (h0r : 0 ≤ rq) (h1r : rq ≤ (e.nrows : ℚ) - 1)
    (h0c : 0 ≤ cq) (h1c : cq ≤ (e.ncols : ℚ) - 1) :
    calculate_cell_shadow_checked e row col d =
        some (calculate_cell_shadow e row col d) ∧
      calculate_subpixel_shadow_checked e rq cq d =
        some (calculate_subpixel_shadow e rq cq d) := by
  constructor
  · unfold calculate_cell_shadow_checked calculate_cell_shadow dsmGet?
    rw [if_pos ⟨hr, hc⟩, Option.some_bind]
    exact march_checked_eq_some e d _ _ _
  · have hrfloor : (⌊rq⌋).toNat < e.nrows := by
      have h1 : (0 : ℤ) ≤ ⌊rq⌋ := Int.floor_nonneg.mpr h0r
      have h2 : (⌊rq⌋ : ℚ) ≤ (e.nrows : ℚ) - 1 := le_trans (Int.floor_le _) h1r
      have h3 : ⌊rq⌋ ≤ (e.nrows : ℤ) - 1 := by exact_mod_cast h2
      omega
    have hcfloor : (⌊cq⌋).toNat < e.ncols := by
      have h1 : (0 : ℤ) ≤ ⌊cq⌋ := Int.floor_nonneg.mpr h0c
      have h2 : (⌊cq⌋ : ℚ) ≤ (e.ncols : ℚ) - 1 := le_trans (Int.floor_le _) h1c
      have h3 : ⌊cq⌋ ≤ (e.ncols : ℤ) - 1 := by exact_mod_cast h2
      omega
    unfold calculate_subpixel_shadow_checked calculate_subpixel_shadow
    rw [interpolate_height_checked_eq e rq cq hrfloor hcfloor, Option.some_bind]
    exact march_checked_eq_some e d _ _ _

/-- A 2 by 2 flat grid used by the C10 witness. -/
def boundsGrid : Engine :=
  { nrows := 2, ncols := 2
    dsm := fun _ _ => 0
    heights := fun _ _ => 0
    resolution := 1, bufferMeters := 1
    aoiMinRow := 0, aoiMaxRow := 1, aoiMinCol := 0, aoiMaxCol := 1 }

/-- Witness for C10: on boundsGrid, the checked whole-cell kernel at cell
(0, 0) and the checked subpixel kernel at (1/2, 1/2) both return some of the
unchecked values. -/
theorem ray_march_dsm_reads_in_bounds_witness :
    calculate_cell_shadow_checked boundsGrid 0 0 (1, 0, 1) =
        some (calculate_cell_shadow boundsGrid 0 0 (1, 0, 1)) ∧
      calculate_subpixel_shadow_checked boundsGrid (1/2) (1/2) (1, 0, 1) =
        some (calculate_subpixel_shadow boundsGrid (1/2) (1/2) (1, 0, 1)) :=
  ray_march_dsm_reads_in_bounds boundsGrid (1, 0, 1) 0 0 (1/2) (1/2)
    (by norm_num [boundsGrid]) (by norm_num [boundsGrid])
    (by norm_num) (by norm_num [boundsGrid]) (by norm_num) (by norm_num [boundsGrid])

end Shadow
